import Mathlib

/-!
Device discovery and device composition for the RS400 family (ds5-factory).

A shallow embedding of `src/ds5/ds5-factory.cpp`:

* the eight `rs4xx_device` classes and the base `ds5_device`, each with the
  capability modules it inherits, in base-specifier order;
* `ds5_info::create`, the `switch` over the product id of the first depth
  descriptor;
* `ds5_info::pick_ds5_devices`, the discovery pass over a descriptor inventory.

The descriptor types and the helper functions that the file calls
(`filter_by_product`, `group_devices_by_unique_id`,
`group_devices_and_hids_by_unique_id`, `mi_present`, `try_fetch_usb_device`,
`trim_device_list`) are declared in headers that are not part of the source
file; they are modelled from the specification and marked as such. The product
id constants of namespace `ds` are parameters of the model.
-/

namespace librealsense

/-! ## Data model -/

/-- Modelled from the spec: `platform::uvc_device_info` (declared in `backend.h`),
the VideoDescriptor `{unique_id, product_id, interface_index}`. The source reads
the fields `pid` (line 137, 179) and passes the interface index to `mi_present`. -/
structure uvc_device_info where
  unique_id : String
  pid : Nat
  mi : Nat
deriving DecidableEq, Repr

/-- Modelled from the spec: `platform::hid_device_info` (declared in `backend.h`),
the AuxDescriptor `{unique_id, product_id}`. -/
structure hid_device_info where
  unique_id : String
  pid : Nat
deriving DecidableEq, Repr

/-- Modelled from the spec: `platform::usb_device_info` (declared in `backend.h`),
the ControlDescriptor `{unique_id, product_id}`. -/
structure usb_device_info where
  unique_id : String
  pid : Nat
deriving DecidableEq, Repr

/-- The aggregate `platform::backend_device_group`, built at line 138 as
`{_depth, _hwm, _hid}` and read at lines 172, 173, 188, 208 through the members
`uvc_devices`, `usb_devices`, `hid_devices`. -/
structure backend_device_group where
  uvc_devices : List uvc_device_info
  usb_devices : List usb_device_info
  hid_devices : List hid_device_info
deriving DecidableEq, Repr

/-- The constants of namespace `ds` (declared in `ds5-private.h`) that the file
uses: the nine case labels of the `switch` in `create` and the allow-list
`rs4xx_sku_pid` given to `filter_by_product`. Their values are not in the source
file, so they are parameters; case labels of one `switch` are pairwise
distinct. -/
structure ds where
  RS400_PID : Nat
  RS410_PID : Nat
  RS415_PID : Nat
  RS420_PID : Nat
  RS420_MM_PID : Nat
  RS430_PID : Nat
  RS430_MM_PID : Nat
  RS430_MM_RGB_PID : Nat
  RS435_RGB_PID : Nat
  rs4xx_sku_pid : List Nat
  distinct : [RS400_PID, RS410_PID, RS415_PID, RS420_PID, RS420_MM_PID, RS430_PID,
    RS430_MM_PID, RS430_MM_RGB_PID, RS435_RGB_PID].Nodup

/-- The nine case labels of the `switch` in `create`, in the order of the cases. -/
def ds.switch_pids (P : ds) : List Nat :=
  [P.RS400_PID, P.RS410_PID, P.RS415_PID, P.RS420_PID, P.RS420_MM_PID, P.RS430_PID,
    P.RS430_MM_PID, P.RS430_MM_RGB_PID, P.RS435_RGB_PID]

/-- The capability classes a device class can inherit besides the virtual base
`ds5_device` (headers included at lines 19 to 22, and the advanced mode base). -/
inductive capability_module where
  | ds5_rolling_shutter
  | ds5_active
  | ds5_color
  | ds5_motion
  | ds5_advanced_mode_base
deriving DecidableEq, Repr

/-- The classes `create` can instantiate: the base `ds5_device` and the eight
classes declared at lines 26 to 130. -/
inductive device_class where
  | ds5_device
  | rs400_device
  | rs410_device
  | rs415_device
  | rs420_mm_device
  | rs430_device
  | rs430_mm_device
  | rs435_device
  | rs430_rgb_mm_device
deriving DecidableEq, Repr

/-- The capability modules of a class in the order of its base-specifier list,
which is the order in which the constructors of the bases run (after the
virtual base `ds5_device`); it is also the order of the mem-initializers. The
eight rows of the classes of lines 26 to 130 are read off the source. The row
of `ds5_device` is modelled from the spec: the class is declared in a header
outside the source file and is the "base device (owns the group's control
channel, if any, and the primary depth sensor)" on which the modules are
layered; in the source every class that has `ds5_advanced_mode_base` names it as
a base of its own, built from the members `ds5_device::_hw_monitor` and
`get_depth_sensor()` of the base device. -/
def device_class.modules : device_class → List capability_module
  | .ds5_device => []
  | .rs400_device => [.ds5_rolling_shutter, .ds5_advanced_mode_base]
  | .rs410_device => [.ds5_rolling_shutter, .ds5_active, .ds5_advanced_mode_base]
  | .rs415_device =>
      [.ds5_rolling_shutter, .ds5_active, .ds5_color, .ds5_advanced_mode_base]
  | .rs420_mm_device => [.ds5_motion, .ds5_advanced_mode_base]
  | .rs430_device => [.ds5_active, .ds5_advanced_mode_base]
  | .rs430_mm_device => [.ds5_active, .ds5_motion, .ds5_advanced_mode_base]
  | .rs435_device => [.ds5_active, .ds5_color, .ds5_advanced_mode_base]
  | .rs430_rgb_mm_device =>
      [.ds5_active, .ds5_color, .ds5_motion, .ds5_advanced_mode_base]

/-- The fixed layering order of the specification: timestamp correction (rolling
shutter), active projection, color sensing, motion sensing, advanced mode. -/
def layering_order : List capability_module :=
  [.ds5_rolling_shutter, .ds5_active, .ds5_color, .ds5_motion, .ds5_advanced_mode_base]

/-- A constructed device: its dynamic class and the group it was built from
(`std::make_shared<C>(backend, group)`). -/
structure device where
  cls : device_class
  group : backend_device_group
deriving DecidableEq, Repr

/-- The members of `ds5_info` that `create` reads; the constructor call at line
197 passes `(backend, devices, hwm_devices, hids)`. The backend is an opaque
collaborator and carries no data of the model. -/
structure ds5_info where
  _depth : List uvc_device_info
  _hwm : List usb_device_info
  _hid : List hid_device_info
deriving DecidableEq, Repr

/-- The ways a call can fail to return: a thrown `std::runtime_error` with its
message, or `devices[0]` evaluated on an empty vector (line 179, before the
`!devices.empty()` test of line 182). -/
inductive failure where
  | runtime_error (what : String)
  | undefined_behavior
deriving DecidableEq, Repr

deriving instance DecidableEq for Except

/-! ## `ds5_info::create` -/

/-- Lines 132 to 163: throws when there is no depth descriptor, otherwise
switches over the product id of the first one. -/
def ds5_info.create (P : ds) (info : ds5_info) : Except failure device :=
  match info._depth with
  | [] => .error (.runtime_error "Depth Camera not found!")
  | front :: _ =>
    let pid := front.pid
    let group : backend_device_group := ⟨info._depth, info._hwm, info._hid⟩
    if pid = P.RS400_PID then .ok ⟨.rs400_device, group⟩
    else if pid = P.RS410_PID then .ok ⟨.rs410_device, group⟩
    else if pid = P.RS415_PID then .ok ⟨.rs415_device, group⟩
    else if pid = P.RS420_PID then .ok ⟨.ds5_device, group⟩
    else if pid = P.RS420_MM_PID then .ok ⟨.rs420_mm_device, group⟩
    else if pid = P.RS430_PID then .ok ⟨.rs430_device, group⟩
    else if pid = P.RS430_MM_PID then .ok ⟨.rs430_mm_device, group⟩
    else if pid = P.RS430_MM_RGB_PID then .ok ⟨.rs430_rgb_mm_device, group⟩
    else if pid = P.RS435_RGB_PID then .ok ⟨.rs435_device, group⟩
    else .error (.runtime_error "Unsupported RS400 model!")

/-! ## Helpers of the discovery pass -/

/-- Modelled from the spec: `filter_by_product` (ProductFilter), "the subset of
descriptors whose product_id is in the allow-list, order preserved". -/
def filter_by_product (devices : List uvc_device_info) (pid_list : List Nat) :
    List uvc_device_info :=
  devices.filter (fun info => decide (info.pid ∈ pid_list))

/-- The key of a group: the unique id of its first descriptor. -/
def group_unique_id (g : List uvc_device_info) : Option String :=
  g.head?.map (fun info => info.unique_id)

/-- One accumulation step of the grouper: the descriptor joins the group of its
unique id, or opens a new group after the existing ones. -/
def add_to_groups (info : uvc_device_info) :
    List (List uvc_device_info) → List (List uvc_device_info)
  | [] => [[info]]
  | g :: gs =>
    if group_unique_id g = some info.unique_id then (g ++ [info]) :: gs
    else g :: add_to_groups info gs

/-- Modelled from the spec: `group_devices_by_unique_id` (UniqueIdGrouper), "iterate
filtered video descriptors in encounter order, accumulating them into an
accumulator keyed by unique_id (first-seen order defines group order)". -/
def group_devices_by_unique_id (devices : List uvc_device_info) :
    List (List uvc_device_info) :=
  devices.foldl (fun acc info => add_to_groups info acc) []

/-- One attachment step: the auxiliary descriptor joins the group sharing its
unique id if one exists, and is dropped otherwise. -/
def attach_hid (hid : hid_device_info) :
    List (List uvc_device_info × List hid_device_info) →
    List (List uvc_device_info × List hid_device_info)
  | [] => []
  | g :: gs =>
    if group_unique_id g.1 = some hid.unique_id then (g.1, g.2 ++ [hid]) :: gs
    else g :: attach_hid hid gs

/-- Modelled from the spec: `group_devices_and_hids_by_unique_id` (UniqueIdGrouper),
"iterate the auxiliary inventory and attach each AuxDescriptor to the group
sharing its unique_id if one exists — an auxiliary descriptor with no matching
video group is dropped". -/
def group_devices_and_hids_by_unique_id (devices : List (List uvc_device_info))
    (hids : List hid_device_info) :
    List (List uvc_device_info × List hid_device_info) :=
  hids.foldl (fun acc hid => attach_hid hid acc) (devices.map (fun g => (g, [])))

/-- Modelled from the spec: `mi_present` (GroupValidator, check 1), "the group's
first VideoDescriptor must expose the expected control interface index". -/
def mi_present (devices : List uvc_device_info) (mi : Nat) : Bool :=
  match devices with
  | [] => false
  | front :: _ => decide (front.mi = mi)

/-- Modelled from the spec: `ds::try_fetch_usb_device` (GroupValidator, step 3),
"attempt to locate a ControlDescriptor in the broader control-interface
inventory matching the group's unique_id/product_id". The `bool` result and the
out-parameter `hwm` are one optional value. -/
def try_fetch_usb_device (devices : List usb_device_info) (info : uvc_device_info) :
    Option usb_device_info :=
  devices.find? (fun u => decide (u.unique_id = info.unique_id ∧ u.pid = info.pid))

/-- Modelled from the spec: `trim_device_list` (Registry), "removes all descriptors
belonging to successfully validated groups from the caller-owned shared master
inventory". -/
def trim_device_list (devices chosen : List uvc_device_info) : List uvc_device_info :=
  devices.filter (fun info => decide (info ∉ chosen))

/-! ## `ds5_info::pick_ds5_devices` -/

/-- The auxiliary test of line 179 on the first descriptor of a group. -/
def requires_hid (P : ds) (front : uvc_device_info) : Bool :=
  decide (front.pid = P.RS430_MM_PID ∨ front.pid = P.RS420_MM_PID)

/-- The handle built at line 197 for a group: its descriptors, the fetched
hardware-monitor descriptor if any (lines 185 to 195), its auxiliary
descriptors. -/
def make_info (usb_devices : List usb_device_info) (front : uvc_device_info)
    (devices : List uvc_device_info) (hids : List hid_device_info) : ds5_info :=
  let hwm_devices : List usb_device_info :=
    match try_fetch_usb_device usb_devices front with
    | some hwm => [hwm]
    | none => []
  ⟨devices, hwm_devices, hids⟩

/-- Lines 174 to 206: the loop over the groups, with the local vectors `chosen`
and `results` as explicit state. -/
def pick_loop (P : ds) (usb_devices : List usb_device_info) :
    List (List uvc_device_info × List hid_device_info) →
    List uvc_device_info × List ds5_info →
    Except failure (List uvc_device_info × List ds5_info)
  | [], st => .ok st
  | g :: gs, (chosen, results) =>
    let devices := g.1
    let hids := g.2
    match devices with
    | [] => .error .undefined_behavior
    | front :: _ =>
      if requires_hid P front && decide (hids.length = 0) then
        pick_loop P usb_devices gs (chosen, results)
      else if !devices.isEmpty && mi_present devices 0 then
        let info := make_info usb_devices front devices hids
        pick_loop P usb_devices gs (chosen ++ devices, results ++ [info])
      else
        pick_loop P usb_devices gs (chosen, results)

/-- The groups the pass iterates over (lines 172 and 173). -/
def group_devices (P : ds) (group : backend_device_group) :
    List (List uvc_device_info × List hid_device_info) :=
  let valid_pid := filter_by_product group.uvc_devices P.rs4xx_sku_pid
  group_devices_and_hids_by_unique_id (group_devices_by_unique_id valid_pid) group.hid_devices

/-- Lines 165 to 211. The by-reference argument `group` is returned next to
the result vector; only its `uvc_devices` member is written (line 208). -/
def ds5_info.pick_ds5_devices (P : ds) (group : backend_device_group) :
    Except failure (List ds5_info × backend_device_group) :=
  match pick_loop P group.usb_devices (group_devices P group) ([], []) with
  | .error e => .error e
  | .ok (chosen, results) =>
    .ok (results, { group with uvc_devices := trim_device_list group.uvc_devices chosen })

/-! ## Concrete inputs -/

/-- An assignment of the constants of namespace `ds`: nine distinct product ids
and an allow-list holding them and one further id (0x0ad6) that the `switch` of
`create` does not list. -/
def rs4xx : ds where
  RS400_PID := 0x0ad1
  RS410_PID := 0x0ad2
  RS415_PID := 0x0ad3
  RS420_PID := 0x0af6
  RS420_MM_PID := 0x0afe
  RS430_PID := 0x0ad4
  RS430_MM_PID := 0x0ad5
  RS430_MM_RGB_PID := 0x0b01
  RS435_RGB_PID := 0x0b07
  rs4xx_sku_pid := [0x0ad1, 0x0ad2, 0x0ad3, 0x0ad4, 0x0ad5, 0x0ad6, 0x0af6, 0x0afe, 0x0b01, 0x0b07]
  distinct := by decide

/-- An inventory with three physical units and a stray descriptor: unit X1
(product id of `RS430_PID`, interface indices 0 and 3, one auxiliary and one
hardware-monitor descriptor), unit X2 (product id of `RS430_MM_PID`, no auxiliary
descriptor), unit X4 (product id of `RS410_PID`, first interface index 1, then
0), and a descriptor whose product id is not in the allow-list. -/
def sample_inventory : backend_device_group where
  uvc_devices := [⟨"X1", 0x0ad4, 0⟩, ⟨"X2", 0x0ad5, 0⟩, ⟨"X1", 0x0ad4, 3⟩,
    ⟨"X4", 0x0ad2, 1⟩, ⟨"X4", 0x0ad2, 0⟩, ⟨"X9", 0x1234, 0⟩]
  usb_devices := [⟨"X1", 0x0ad4⟩]
  hid_devices := [⟨"X1", 0x0ad4⟩, ⟨"X7", 0x0001⟩]

/-- The outcome of the pass on `sample_inventory`: one handle, for unit X1, and
the inventory without the two descriptors of X1. -/
def sample_outcome : List ds5_info × backend_device_group :=
  ([⟨[⟨"X1", 0x0ad4, 0⟩, ⟨"X1", 0x0ad4, 3⟩], [⟨"X1", 0x0ad4⟩], [⟨"X1", 0x0ad4⟩]⟩],
   ⟨[⟨"X2", 0x0ad5, 0⟩, ⟨"X4", 0x0ad2, 1⟩, ⟨"X4", 0x0ad2, 0⟩, ⟨"X9", 0x1234, 0⟩],
    [⟨"X1", 0x0ad4⟩], [⟨"X1", 0x0ad4⟩, ⟨"X7", 0x0001⟩]⟩)

/-! ## Vocabulary of the statements -/

/-- The two validation checks of the loop body on a group: it is not a group
that needs auxiliary descriptors and has none (line 179), and the control
interface test of lines 182 and 183 succeeds. -/
def validated (P : ds) (g : List uvc_device_info × List hid_device_info) : Bool :=
  match g.1 with
  | [] => false
  | front :: _ =>
    !(requires_hid P front && decide (g.2.length = 0)) && (!g.1.isEmpty && mi_present g.1 0)

/-- The handle a group yields in one iteration of the loop, if it yields one. -/
def group_handle (P : ds) (usb_devices : List usb_device_info)
    (g : List uvc_device_info × List hid_device_info) : Option ds5_info :=
  match g.1 with
  | [] => none
  | front :: _ =>
    if validated P g then some (make_info usb_devices front g.1 g.2) else none

/-- The handles of a pass, read off the groups. -/
def pass_results (P : ds) (group : backend_device_group) : List ds5_info :=
  (group_devices P group).filterMap (group_handle P group.usb_devices)

/-- Invariant of the accumulator of the grouper over descriptors drawn from
`seen`: no group is empty, the descriptors of a group carry the unique id of
the group, two groups never share a unique id, and every grouped descriptor is
one of `seen`. -/
def well_grouped (seen : List uvc_device_info) (gs : List (List uvc_device_info)) : Prop :=
  (∀ g ∈ gs, g ≠ []) ∧
  (∀ g ∈ gs, ∀ d ∈ g, group_unique_id g = some d.unique_id) ∧
  (gs.map group_unique_id).Nodup ∧
  (∀ g ∈ gs, ∀ d ∈ g, d ∈ seen)

/-! ## The loop in closed form -/

theorem pick_loop_eq (P : ds) (usb_devices : List usb_device_info) :
    ∀ (gs : List (List uvc_device_info × List hid_device_info))
      (chosen : List uvc_device_info) (results : List ds5_info),
      (∀ g ∈ gs, g.1 ≠ []) →
      pick_loop P usb_devices gs (chosen, results) =
        .ok (chosen ++ (gs.filterMap (group_handle P usb_devices)).flatMap (fun h => h._depth),
             results ++ gs.filterMap (group_handle P usb_devices)) := by
  intro gs
  induction gs with
  | nil => intro chosen results _; simp [pick_loop]
  | cons g gs ih =>
    intro chosen results hne
    have hg : g.1 ≠ [] := hne g (by simp)
    have hgs : ∀ x ∈ gs, x.1 ≠ [] := fun x hx => hne x (by simp [hx])
    obtain ⟨devices, hids⟩ := g
    cases devices with
    | nil => exact absurd rfl hg
    | cons front rest =>
      simp only [pick_loop]
      by_cases h1 : (requires_hid P front && decide (hids.length = 0)) = true
      · rw [if_pos h1, ih chosen results hgs]
        have : group_handle P usb_devices (front :: rest, hids) = none := by
          simp only [group_handle, validated]
          rw [h1]; simp
        simp [List.filterMap_cons, this]
      · rw [if_neg h1]
        by_cases h2 : (!(front :: rest).isEmpty && mi_present (front :: rest) 0) = true
        · rw [if_pos h2, ih _ _ hgs]
          have : group_handle P usb_devices (front :: rest, hids)
              = some (make_info usb_devices front (front :: rest) hids) := by
            simp only [group_handle, validated]
            simp only [Bool.not_eq_true] at h1
            rw [h1, h2]; simp
          simp [List.filterMap_cons, this, make_info]
        · rw [if_neg h2, ih chosen results hgs]
          have : group_handle P usb_devices (front :: rest, hids) = none := by
            simp only [group_handle, validated]
            simp only [Bool.not_eq_true] at h2
            rw [h2]; simp
          simp [List.filterMap_cons, this]

/-! ## The grouper -/

theorem group_unique_id_append (g : List uvc_device_info) (info : uvc_device_info)
    (hg : g ≠ []) : group_unique_id (g ++ [info]) = group_unique_id g := by
  cases g with
  | nil => exact absurd rfl hg
  | cons a t => simp [group_unique_id]

theorem add_to_groups_ids (info : uvc_device_info) :
    ∀ gs : List (List uvc_device_info), (∀ g ∈ gs, g ≠ []) →
      (add_to_groups info gs).map group_unique_id =
        if some info.unique_id ∈ gs.map group_unique_id then gs.map group_unique_id
        else gs.map group_unique_id ++ [some info.unique_id] := by
  intro gs
  induction gs with
  | nil => intro _; simp [add_to_groups, group_unique_id]
  | cons g gs ih =>
    intro hne
    have hg : g ≠ [] := hne g (by simp)
    have hgs : ∀ x ∈ gs, x ≠ [] := fun x hx => hne x (by simp [hx])
    simp only [add_to_groups]
    by_cases h : group_unique_id g = some info.unique_id
    · rw [if_pos h]
      simp [group_unique_id_append g info hg, h]
    · rw [if_neg h]
      have h2 : ¬ some info.unique_id = group_unique_id g := fun e => h e.symm
      simp only [List.map_cons, List.mem_cons, h2, false_or, ih hgs]
      split <;> simp

theorem add_to_groups_well_grouped (seen : List uvc_device_info) (info : uvc_device_info)
    (hinfo : info ∈ seen) :
    ∀ gs : List (List uvc_device_info), well_grouped seen gs →
      well_grouped seen (add_to_groups info gs) := by
  intro gs
  induction gs with
  | nil =>
    intro _
    refine ⟨?_, ?_, ?_, ?_⟩ <;> simp [add_to_groups, group_unique_id, hinfo]
  | cons g gs ih =>
    intro hw
    have hids := add_to_groups_ids info (g :: gs) hw.1
    obtain ⟨h1, h2, h3, h4⟩ := hw
    have hg : g ≠ [] := h1 g (by simp)
    have htail : well_grouped seen gs :=
      ⟨fun x hx => h1 x (by simp [hx]), fun x hx => h2 x (by simp [hx]),
        (List.nodup_cons.mp h3).2, fun x hx => h4 x (by simp [hx])⟩
    have ih2 := ih htail
    refine ⟨?_, ?_, ?_, ?_⟩
    · intro x hx
      simp only [add_to_groups] at hx
      split at hx
      · rcases List.mem_cons.mp hx with rfl | hx
        · simp
        · exact h1 x (by simp [hx])
      · rcases List.mem_cons.mp hx with rfl | hx
        · exact hg
        · exact ih2.1 x hx
    · intro x hx d hd
      simp only [add_to_groups] at hx
      split at hx
      · rename_i hmatch
        rcases List.mem_cons.mp hx with rfl | hx
        · rw [group_unique_id_append g info hg]
          rcases List.mem_append.mp hd with hd | hd
          · exact h2 g (by simp) d hd
          · simp only [List.mem_singleton] at hd
            rw [hd]; exact hmatch
        · exact h2 x (by simp [hx]) d hd
      · rcases List.mem_cons.mp hx with rfl | hx
        · exact h2 x (by simp) d hd
        · exact ih2.2.1 x hx d hd
    · rw [hids]
      split
      · exact h3
      · rename_i hnot
        exact List.Nodup.append h3 (by simp) (by
          intro a ha hb
          simp only [List.mem_singleton] at hb
          exact hnot (hb ▸ ha))
    · intro x hx d hd
      simp only [add_to_groups] at hx
      split at hx
      · rcases List.mem_cons.mp hx with rfl | hx
        · rcases List.mem_append.mp hd with hd | hd
          · exact h4 g (by simp) d hd
          · simp only [List.mem_singleton] at hd
            rw [hd]; exact hinfo
        · exact h4 x (by simp [hx]) d hd
      · rcases List.mem_cons.mp hx with rfl | hx
        · exact h4 x (by simp) d hd
        · exact ih2.2.2.2 x hx d hd

theorem foldl_add_to_groups_well_grouped (seen : List uvc_device_info) :
    ∀ (l : List uvc_device_info) (acc : List (List uvc_device_info)),
      (∀ x ∈ l, x ∈ seen) → well_grouped seen acc →
      well_grouped seen (l.foldl (fun acc info => add_to_groups info acc) acc) := by
  intro l
  induction l with
  | nil => intro acc _ h; exact h
  | cons a l ih =>
    intro acc hl h
    simp only [List.foldl_cons]
    exact ih _ (fun x hx => hl x (by simp [hx]))
      (add_to_groups_well_grouped seen a (hl a (by simp)) acc h)

theorem group_devices_by_unique_id_well_grouped (devices : List uvc_device_info) :
    well_grouped devices (group_devices_by_unique_id devices) := by
  unfold group_devices_by_unique_id
  exact foldl_add_to_groups_well_grouped devices devices [] (fun _ h => h)
    ⟨by simp, by simp, by simp, by simp⟩

theorem attach_hid_map_fst (hid : hid_device_info) :
    ∀ gs : List (List uvc_device_info × List hid_device_info),
      (attach_hid hid gs).map Prod.fst = gs.map Prod.fst := by
  intro gs
  induction gs with
  | nil => simp [attach_hid]
  | cons g gs ih =>
    simp only [attach_hid]
    split
    · simp
    · simp [ih]

theorem group_devices_and_hids_map_fst (hids : List hid_device_info) :
    ∀ devices : List (List uvc_device_info),
      (group_devices_and_hids_by_unique_id devices hids).map Prod.fst = devices := by
  unfold group_devices_and_hids_by_unique_id
  have key : ∀ (l : List hid_device_info)
      (acc : List (List uvc_device_info × List hid_device_info)),
      (l.foldl (fun acc hid => attach_hid hid acc) acc).map Prod.fst = acc.map Prod.fst := by
    intro l
    induction l with
    | nil => intro acc; rfl
    | cons a l ih => intro acc; simp only [List.foldl_cons]; rw [ih, attach_hid_map_fst]
  intro devices
  rw [key]
  simp [Function.comp_def]

/-- The video parts of the groups of a pass are well grouped over the filtered
inventory. -/
theorem group_devices_well_grouped (P : ds) (group : backend_device_group) :
    well_grouped (filter_by_product group.uvc_devices P.rs4xx_sku_pid)
      ((group_devices P group).map Prod.fst) := by
  unfold group_devices
  simp only [group_devices_and_hids_map_fst]
  exact group_devices_by_unique_id_well_grouped _

theorem group_devices_ne_nil (P : ds) (group : backend_device_group) :
    ∀ g ∈ group_devices P group, g.1 ≠ [] := by
  intro g hg
  exact (group_devices_well_grouped P group).1 g.1 (List.mem_map_of_mem Prod.fst hg)

/-- The pass in closed form: it always returns, with the handles of the validated
groups in group order and the inventory trimmed by their descriptors. -/
theorem pick_ds5_devices_eq (P : ds) (group : backend_device_group) :
    ds5_info.pick_ds5_devices P group =
      .ok (pass_results P group,
        { group with uvc_devices := (trim_device_list group.uvc_devices
            ((pass_results P group).flatMap (fun h => h._depth))) }) := by
  unfold ds5_info.pick_ds5_devices
  rw [pick_loop_eq P group.usb_devices _ [] [] (group_devices_ne_nil P group)]
  simp [pass_results]

/-! ## Claims about `ds5_info::create` -/

/-- The class `create` selects for a handle with a first depth descriptor. -/
theorem create_cons (P : ds) (front : uvc_device_info) (rest : List uvc_device_info)
    (hwm : List usb_device_info) (hid : List hid_device_info) :
    ds5_info.create P ⟨front :: rest, hwm, hid⟩ =
      if front.pid = P.RS400_PID then .ok ⟨.rs400_device, ⟨front :: rest, hwm, hid⟩⟩
      else if front.pid = P.RS410_PID then .ok ⟨.rs410_device, ⟨front :: rest, hwm, hid⟩⟩
      else if front.pid = P.RS415_PID then .ok ⟨.rs415_device, ⟨front :: rest, hwm, hid⟩⟩
      else if front.pid = P.RS420_PID then .ok ⟨.ds5_device, ⟨front :: rest, hwm, hid⟩⟩
      else if front.pid = P.RS420_MM_PID then
        .ok ⟨.rs420_mm_device, ⟨front :: rest, hwm, hid⟩⟩
      else if front.pid = P.RS430_PID then .ok ⟨.rs430_device, ⟨front :: rest, hwm, hid⟩⟩
      else if front.pid = P.RS430_MM_PID then
        .ok ⟨.rs430_mm_device, ⟨front :: rest, hwm, hid⟩⟩
      else if front.pid = P.RS430_MM_RGB_PID then
        .ok ⟨.rs430_rgb_mm_device, ⟨front :: rest, hwm, hid⟩⟩
      else if front.pid = P.RS435_RGB_PID then
        .ok ⟨.rs435_device, ⟨front :: rest, hwm, hid⟩⟩
      else .error (.runtime_error "Unsupported RS400 model!") := rfl

/-- The outcome of `create` on a handle with a first depth descriptor: either the
product id is none of the case labels and the call throws, or the id is one of
the labels and the device of the first matching case is returned. -/
theorem create_cases (P : ds) (front : uvc_device_info) (rest : List uvc_device_info)
    (hwm : List usb_device_info) (hid : List hid_device_info) :
    (front.pid ∉ P.switch_pids ∧
      ds5_info.create P ⟨front :: rest, hwm, hid⟩ =
        .error (.runtime_error "Unsupported RS400 model!")) ∨
    (front.pid ∈ P.switch_pids ∧ ∃ cls,
      ds5_info.create P ⟨front :: rest, hwm, hid⟩ = .ok ⟨cls, ⟨front :: rest, hwm, hid⟩⟩ ∧
      ((front.pid = P.RS400_PID ∧ cls = .rs400_device) ∨
       (front.pid = P.RS410_PID ∧ cls = .rs410_device) ∨
       (front.pid = P.RS415_PID ∧ cls = .rs415_device) ∨
       (front.pid = P.RS420_PID ∧ cls = .ds5_device) ∨
       (front.pid = P.RS420_MM_PID ∧ cls = .rs420_mm_device) ∨
       (front.pid = P.RS430_PID ∧ cls = .rs430_device) ∨
       (front.pid = P.RS430_MM_PID ∧ cls = .rs430_mm_device) ∨
       (front.pid = P.RS430_MM_RGB_PID ∧ cls = .rs430_rgb_mm_device) ∨
       (front.pid = P.RS435_RGB_PID ∧ cls = .rs435_device))) := by
  rw [create_cons]
  simp only [ds.switch_pids, List.mem_cons, List.mem_singleton, List.not_mem_nil, or_false]
  by_cases c1 : front.pid = P.RS400_PID
  · rw [if_pos c1]; exact Or.inr ⟨by simp [c1], _, rfl, by simp [c1]⟩
  rw [if_neg c1]
  by_cases c2 : front.pid = P.RS410_PID
  · rw [if_pos c2]; exact Or.inr ⟨by simp [c2], _, rfl, by simp [c2]⟩
  rw [if_neg c2]
  by_cases c3 : front.pid = P.RS415_PID
  · rw [if_pos c3]; exact Or.inr ⟨by simp [c3], _, rfl, by simp [c3]⟩
  rw [if_neg c3]
  by_cases c4 : front.pid = P.RS420_PID
  · rw [if_pos c4]; exact Or.inr ⟨by simp [c4], _, rfl, by simp [c4]⟩
  rw [if_neg c4]
  by_cases c5 : front.pid = P.RS420_MM_PID
  · rw [if_pos c5]; exact Or.inr ⟨by simp [c5], _, rfl, by simp [c5]⟩
  rw [if_neg c5]
  by_cases c6 : front.pid = P.RS430_PID
  · rw [if_pos c6]; exact Or.inr ⟨by simp [c6], _, rfl, by simp [c6]⟩
  rw [if_neg c6]
  by_cases c7 : front.pid = P.RS430_MM_PID
  · rw [if_pos c7]; exact Or.inr ⟨by simp [c7], _, rfl, by simp [c7]⟩
  rw [if_neg c7]
  by_cases c8 : front.pid = P.RS430_MM_RGB_PID
  · rw [if_pos c8]; exact Or.inr ⟨by simp [c8], _, rfl, by simp [c8]⟩
  rw [if_neg c8]
  by_cases c9 : front.pid = P.RS435_RGB_PID
  · rw [if_pos c9]; exact Or.inr ⟨by simp [c9], _, rfl, by simp [c9]⟩
  rw [if_neg c9]
  exact Or.inl ⟨by simp [c1, c2, c3, c4, c5, c6, c7, c8, c9], rfl⟩

/-- C1: for a handle with a non-empty depth list, `create` throws "Unsupported
RS400 model!" exactly when the product id of the first depth descriptor is none
of the nine case labels; then no device is returned, and for each of the nine
labels a device is returned. -/
theorem create_unsupported_iff (P : ds) (info : ds5_info) (h : info._depth ≠ []) :
    (info.create P = .error (.runtime_error "Unsupported RS400 model!") ↔
        (info._depth.head h).pid ∉ P.switch_pids) ∧
    ((info._depth.head h).pid ∉ P.switch_pids → ∀ d, info.create P ≠ .ok d) ∧
    ((info._depth.head h).pid ∈ P.switch_pids → ∃ d, info.create P = .ok d) := by
  obtain ⟨depth, hwm, hid⟩ := info
  cases depth with
  | nil => exact absurd rfl h
  | cons front rest =>
    simp only [List.head_cons]
    rcases create_cases P front rest hwm hid with ⟨hn, he⟩ | ⟨hm, cls, he, _⟩
    · rw [he]
      refine ⟨⟨fun _ => hn, fun _ => rfl⟩, ?_, fun hm => absurd hm hn⟩
      intro _ d hd
      cases hd
    · rw [he]
      refine ⟨⟨?_, fun hn => absurd hm hn⟩, fun hn => absurd hm hn, fun _ => ⟨_, rfl⟩⟩
      intro hc
      cases hc

theorem create_unsupported_iff_witness :
    ((⟨[⟨"X1", 0x0ad6, 0⟩], [], []⟩ : ds5_info).create rs4xx
        = .error (.runtime_error "Unsupported RS400 model!") ↔
      (0x0ad6 : Nat) ∉ rs4xx.switch_pids) ∧
    ((0x0ad6 : Nat) ∉ rs4xx.switch_pids →
      ∀ d, (⟨[⟨"X1", 0x0ad6, 0⟩], [], []⟩ : ds5_info).create rs4xx ≠ .ok d) ∧
    ((0x0ad6 : Nat) ∈ rs4xx.switch_pids →
      ∃ d, (⟨[⟨"X1", 0x0ad6, 0⟩], [], []⟩ : ds5_info).create rs4xx = .ok d) :=
  create_unsupported_iff rs4xx ⟨[⟨"X1", 0x0ad6, 0⟩], [], []⟩ (by decide)

/-- For the base variant the `switch` reaches the case of `RS420_PID`, which
builds the plain `ds5_device`. -/
theorem create_rs420 (P : ds) (front : uvc_device_info) (rest : List uvc_device_info)
    (hwm : List usb_device_info) (hid : List hid_device_info) (hpid : front.pid = P.RS420_PID) :
    ds5_info.create P ⟨front :: rest, hwm, hid⟩
      = .ok ⟨.ds5_device, ⟨front :: rest, hwm, hid⟩⟩ := by
  have hd := P.distinct
  simp only [List.nodup_cons, List.mem_cons, List.mem_singleton, List.not_mem_nil, or_false,
    not_or] at hd
  obtain ⟨⟨_, _, a1, _⟩, ⟨_, a2, _⟩, ⟨a3, _⟩, _⟩ := hd
  rw [create_cons, hpid, if_neg (Ne.symm a1), if_neg (Ne.symm a2), if_neg (Ne.symm a3), if_pos rfl]

/-- The eight sibling cases: for every case label other than `RS420_PID` the device
`create` builds has `ds5_advanced_mode_base` as its last module, after every other
module and only once. -/
theorem create_sibling_advanced_mode_last (P : ds) (info : ds5_info) (h : info._depth ≠ [])
    (hm : (info._depth.head h).pid ∈ P.switch_pids)
    (hne : (info._depth.head h).pid ≠ P.RS420_PID) :
    ∃ d others, info.create P = .ok d ∧
      d.cls.modules = others ++ [capability_module.ds5_advanced_mode_base] ∧
      capability_module.ds5_advanced_mode_base ∉ others := by
  obtain ⟨depth, hwm, hid⟩ := info
  cases depth with
  | nil => exact absurd rfl h
  | cons front rest =>
    simp only [List.head_cons] at hm hne
    rcases create_cases P front rest hwm hid with ⟨hn, _⟩ | ⟨_, cls, he, hcls⟩
    · exact absurd hm hn
    · refine ⟨_, cls.modules.dropLast, he, ?_, ?_⟩
      · rcases hcls with ⟨_, rfl⟩ | ⟨_, rfl⟩ | ⟨_, rfl⟩ | ⟨e, _⟩ | ⟨_, rfl⟩ | ⟨_, rfl⟩ |
          ⟨_, rfl⟩ | ⟨_, rfl⟩ | ⟨_, rfl⟩
        all_goals first | rfl | exact absurd e hne
      · rcases hcls with ⟨_, rfl⟩ | ⟨_, rfl⟩ | ⟨_, rfl⟩ | ⟨e, _⟩ | ⟨_, rfl⟩ | ⟨_, rfl⟩ |
          ⟨_, rfl⟩ | ⟨_, rfl⟩ | ⟨_, rfl⟩
        all_goals first | decide | exact absurd e hne

/-- C4, the code at the failing input: a handle whose first depth descriptor has
product id `RS420_PID`, one of the nine case labels. The claim asks for a device
with `ds5_advanced_mode_base` layered last; `create` returns the plain
`ds5_device`, which is none of the eight classes of the file that derive from
`ds5_advanced_mode_base` and has no capability module, while each of those eight
classes, built by the sibling cases, has `ds5_advanced_mode_base` as its last
module. -/
theorem create_rs420_without_advanced_mode :
    rs4xx.RS420_PID ∈ rs4xx.switch_pids ∧
    (⟨[⟨"X1", rs4xx.RS420_PID, 0⟩], [], []⟩ : ds5_info).create rs4xx
      = .ok ⟨.ds5_device, ⟨[⟨"X1", rs4xx.RS420_PID, 0⟩], [], []⟩⟩ ∧
    device_class.ds5_device ∉
      [device_class.rs400_device, .rs410_device, .rs415_device, .rs420_mm_device,
        .rs430_device, .rs430_mm_device, .rs435_device, .rs430_rgb_mm_device] ∧
    capability_module.ds5_advanced_mode_base ∉ device_class.ds5_device.modules ∧
    (∀ c ∈ [device_class.rs400_device, .rs410_device, .rs415_device, .rs420_mm_device,
        .rs430_device, .rs430_mm_device, .rs435_device, .rs430_rgb_mm_device],
      c.modules.getLast? = some capability_module.ds5_advanced_mode_base) := by
  decide

/-- The module list of every class follows the fixed layering order and repeats no
module. -/
theorem modules_in_layering_order (c : device_class) :
    c.modules.Sublist layering_order ∧ c.modules.Nodup := by
  cases c <;> decide

/-- C10: for each of the nine case labels `create` returns a device whose modules,
in construction order, are a subsequence of (rolling shutter, active, color,
motion, advanced mode) without repetition, and two handles with the same
product id get the same module sequence. -/
theorem create_layering_order (P : ds) (info info2 : ds5_info)
    (h : info._depth ≠ []) (h2 : info2._depth ≠ [])
    (hpid : (info._depth.head h).pid ∈ P.switch_pids)
    (hsame : (info2._depth.head h2).pid = (info._depth.head h).pid) :
    ∃ d d2, info.create P = .ok d ∧ info2.create P = .ok d2 ∧
      d.cls.modules.Sublist layering_order ∧ d.cls.modules.Nodup ∧
      d2.cls.modules = d.cls.modules := by
  obtain ⟨depth, hwm, hid⟩ := info
  obtain ⟨depth2, hwm2, hid2⟩ := info2
  cases depth with
  | nil => exact absurd rfl h
  | cons front rest =>
    cases depth2 with
    | nil => exact absurd rfl h2
    | cons front2 rest2 =>
      simp only [List.head_cons] at hpid hsame
      simp only [ds.switch_pids, List.mem_cons, List.mem_singleton, List.not_mem_nil,
        or_false] at hpid
      rw [create_cons, create_cons, hsame]
      have hmod := modules_in_layering_order
      by_cases c1 : front.pid = P.RS400_PID
      · simp only [if_pos c1]
        exact ⟨_, _, rfl, rfl, (hmod _).1, (hmod _).2, rfl⟩
      simp only [if_neg c1]
      by_cases c2 : front.pid = P.RS410_PID
      · simp only [if_pos c2]
        exact ⟨_, _, rfl, rfl, (hmod _).1, (hmod _).2, rfl⟩
      simp only [if_neg c2]
      by_cases c3 : front.pid = P.RS415_PID
      · simp only [if_pos c3]
        exact ⟨_, _, rfl, rfl, (hmod _).1, (hmod _).2, rfl⟩
      simp only [if_neg c3]
      by_cases c4 : front.pid = P.RS420_PID
      · simp only [if_pos c4]
        exact ⟨_, _, rfl, rfl, (hmod _).1, (hmod _).2, rfl⟩
      simp only [if_neg c4]
      by_cases c5 : front.pid = P.RS420_MM_PID
      · simp only [if_pos c5]
        exact ⟨_, _, rfl, rfl, (hmod _).1, (hmod _).2, rfl⟩
      simp only [if_neg c5]
      by_cases c6 : front.pid = P.RS430_PID
      · simp only [if_pos c6]
        exact ⟨_, _, rfl, rfl, (hmod _).1, (hmod _).2, rfl⟩
      simp only [if_neg c6]
      by_cases c7 : front.pid = P.RS430_MM_PID
      · simp only [if_pos c7]
        exact ⟨_, _, rfl, rfl, (hmod _).1, (hmod _).2, rfl⟩
      simp only [if_neg c7]
      by_cases c8 : front.pid = P.RS430_MM_RGB_PID
      · simp only [if_pos c8]
        exact ⟨_, _, rfl, rfl, (hmod _).1, (hmod _).2, rfl⟩
      simp only [if_neg c8]
      by_cases c9 : front.pid = P.RS435_RGB_PID
      · simp only [if_pos c9]
        exact ⟨_, _, rfl, rfl, (hmod _).1, (hmod _).2, rfl⟩
      simp [c1, c2, c3, c4, c5, c6, c7, c8, c9] at hpid

theorem create_layering_order_witness :
    ∃ d d2, (⟨[⟨"X1", 0x0b01, 0⟩], [], []⟩ : ds5_info).create rs4xx = .ok d ∧
      (⟨[⟨"X2", 0x0b01, 0⟩, ⟨"X2", 0x0b01, 3⟩], [], [⟨"X2", 0x0b01⟩]⟩ : ds5_info).create rs4xx
        = .ok d2 ∧
      d.cls.modules.Sublist layering_order ∧ d.cls.modules.Nodup ∧
      d2.cls.modules = d.cls.modules :=
  create_layering_order rs4xx ⟨[⟨"X1", 0x0b01, 0⟩], [], []⟩
    ⟨[⟨"X2", 0x0b01, 0⟩, ⟨"X2", 0x0b01, 3⟩], [], [⟨"X2", 0x0b01⟩]⟩
    (by decide) (by decide) (by decide) (by decide)

/-! ## Handles and groups -/

theorem group_handle_eq_some (P : ds) (usb_devices : List usb_device_info)
    (g : List uvc_device_info × List hid_device_info) (h : ds5_info)
    (hh : group_handle P usb_devices g = some h) :
    validated P g = true ∧ ∃ front rest, g.1 = front :: rest ∧
      h = make_info usb_devices front g.1 g.2 := by
  obtain ⟨devices, hids⟩ := g
  cases devices with
  | nil => simp [group_handle] at hh
  | cons front rest =>
    simp only [group_handle] at hh
    split at hh
    · rename_i hv
      simp only [Option.some.injEq] at hh
      exact ⟨hv, front, rest, rfl, hh.symm⟩
    · cases hh

theorem group_handle_of_validated (P : ds) (usb_devices : List usb_device_info)
    (g : List uvc_device_info × List hid_device_info) (hv : validated P g = true) :
    ∃ front rest, g.1 = front :: rest ∧
      group_handle P usb_devices g = some (make_info usb_devices front g.1 g.2) := by
  obtain ⟨devices, hids⟩ := g
  cases devices with
  | nil => simp [validated] at hv
  | cons front rest =>
    refine ⟨front, rest, rfl, ?_⟩
    simp only [group_handle]
    rw [if_pos hv]

theorem group_handle_eq_none (P : ds) (usb_devices : List usb_device_info)
    (g : List uvc_device_info × List hid_device_info) (hv : validated P g = false) :
    group_handle P usb_devices g = none := by
  cases hg : group_handle P usb_devices g with
  | none => rfl
  | some h =>
    have := (group_handle_eq_some P usb_devices g h hg).1
    rw [hv] at this
    cases this

/-- The handles of a pass carry, in order, the descriptors of the validated
groups. -/
theorem filterMap_group_handle_pairs (P : ds) (usb_devices : List usb_device_info) :
    ∀ gs : List (List uvc_device_info × List hid_device_info),
      (gs.filterMap (group_handle P usb_devices)).map (fun h => (h._depth, h._hid)) =
        gs.filter (validated P) := by
  intro gs
  induction gs with
  | nil => rfl
  | cons g gs ih =>
    cases hv : validated P g with
    | false =>
      rw [List.filterMap_cons, group_handle_eq_none P usb_devices g hv, List.filter_cons, hv]
      simpa using ih
    | true =>
      obtain ⟨front, rest, hg, hh⟩ := group_handle_of_validated P usb_devices g hv
      rw [List.filterMap_cons, hh, List.filter_cons, hv]
      simp only [List.map_cons, ite_true, ih]
      rfl

theorem mem_pass_results (P : ds) (group : backend_device_group) (h : ds5_info) :
    h ∈ pass_results P group ↔
      ∃ g ∈ group_devices P group, group_handle P group.usb_devices g = some h := by
  simp [pass_results, List.mem_filterMap]

/-- A descriptor is claimed by the pass exactly when it lies in a validated
group. -/
theorem mem_chosen (P : ds) (group : backend_device_group) (d : uvc_device_info) :
    d ∈ (pass_results P group).flatMap (fun h => h._depth) ↔
      ∃ g ∈ group_devices P group, validated P g = true ∧ d ∈ g.1 := by
  simp only [List.mem_flatMap, mem_pass_results]
  constructor
  · rintro ⟨h, ⟨g, hg, hh⟩, hd⟩
    obtain ⟨hv, front, rest, _, rfl⟩ := group_handle_eq_some P group.usb_devices g h hh
    exact ⟨g, hg, hv, hd⟩
  · rintro ⟨g, hg, hv, hd⟩
    obtain ⟨front, rest, _, hh⟩ := group_handle_of_validated P group.usb_devices g hv
    exact ⟨_, ⟨g, hg, hh⟩, hd⟩

/-- Two groups of a pass that share a descriptor are the same group. -/
theorem group_devices_disjoint (P : ds) (group : backend_device_group)
    (g g2 : List uvc_device_info × List hid_device_info)
    (hg : g ∈ group_devices P group) (hg2 : g2 ∈ group_devices P group)
    (d : uvc_device_info) (hd : d ∈ g.1) (hd2 : d ∈ g2.1) : g = g2 := by
  obtain ⟨_, hid, hnd, _⟩ := group_devices_well_grouped P group
  have e1 := hid g.1 (List.mem_map_of_mem Prod.fst hg) d hd
  have e2 := hid g2.1 (List.mem_map_of_mem Prod.fst hg2) d hd2
  rw [List.map_map] at hnd
  exact List.inj_on_of_nodup_map hnd hg hg2 (by simp only [Function.comp]; rw [e1, e2])

/-- The descriptors of the groups of a pass come from the inventory. -/
theorem group_devices_subset (P : ds) (group : backend_device_group)
    (g : List uvc_device_info × List hid_device_info) (hg : g ∈ group_devices P group)
    (d : uvc_device_info) (hd : d ∈ g.1) :
    d ∈ group.uvc_devices ∧ d.pid ∈ P.rs4xx_sku_pid := by
  have := (group_devices_well_grouped P group).2.2.2 g.1 (List.mem_map_of_mem Prod.fst hg) d hd
  simpa [filter_by_product] using this

/-! ## The pass on a concrete inventory -/

theorem sample_groups :
    group_devices rs4xx sample_inventory =
      [([⟨"X1", 0x0ad4, 0⟩, ⟨"X1", 0x0ad4, 3⟩], [⟨"X1", 0x0ad4⟩]),
       ([⟨"X2", 0x0ad5, 0⟩], []),
       ([⟨"X4", 0x0ad2, 1⟩, ⟨"X4", 0x0ad2, 0⟩], [])] := by
  decide

theorem sample_pass :
    ds5_info.pick_ds5_devices rs4xx sample_inventory = .ok sample_outcome := by
  decide

/-! ## Claims about `ds5_info::pick_ds5_devices` -/

/-- C2: the pass returns for every inventory; a group whose first video
descriptor has product id `RS430_MM_PID` or `RS420_MM_PID` and whose auxiliary
set is empty has no handle in the result (no handle carries its descriptors,
and no handle at all has such a product id with an empty auxiliary list); when
every group of the inventory is of this kind the result is empty and the
inventory is returned as it was. -/
theorem pick_drops_mm_group_without_hid (P : ds) (group : backend_device_group) :
    ∃ results group2, ds5_info.pick_ds5_devices P group = .ok (results, group2) ∧
      (∀ g ∈ group_devices P group, ∀ front, g.1.head? = some front →
        (front.pid = P.RS430_MM_PID ∨ front.pid = P.RS420_MM_PID) → g.2 = [] →
        ∀ h ∈ results, ¬ (h._depth = g.1 ∧ h._hid = g.2)) ∧
      (∀ h ∈ results, ∀ front, h._depth.head? = some front →
        (front.pid = P.RS430_MM_PID ∨ front.pid = P.RS420_MM_PID) → h._hid ≠ []) ∧
      ((∀ g ∈ group_devices P group, ∀ front, g.1.head? = some front →
          (front.pid = P.RS430_MM_PID ∨ front.pid = P.RS420_MM_PID) ∧ g.2 = []) →
        results = [] ∧ group2 = group) := by
  refine ⟨_, _, pick_ds5_devices_eq P group, ?_, ?_, ?_⟩
  · intro g _ front hfront hpid hhid h hh hc
    obtain ⟨g2, _, hg2⟩ := (mem_pass_results P group h).mp hh
    obtain ⟨hv, front2, rest2, hdev, rfl⟩ := group_handle_eq_some P group.usb_devices g2 h hg2
    have e : g2 = g := Prod.ext hc.1 hc.2
    subst e
    obtain ⟨devices, hids⟩ := g2
    cases devices with
    | nil => cases hfront
    | cons a t =>
      simp only [List.head?_cons, Option.some.injEq] at hfront
      subst hfront
      simp only at hhid
      subst hhid
      simp [validated, requires_hid, hpid] at hv
  · intro h hh front hfront hpid hhid
    obtain ⟨g2, _, hg2⟩ := (mem_pass_results P group h).mp hh
    obtain ⟨hv, front2, rest2, hdev, rfl⟩ := group_handle_eq_some P group.usb_devices g2 h hg2
    obtain ⟨devices, hids⟩ := g2
    simp only [make_info] at hfront hhid
    cases devices with
    | nil => cases hfront
    | cons a t =>
      simp only [List.head?_cons, Option.some.injEq] at hfront
      subst hfront
      subst hhid
      simp [validated, requires_hid, hpid] at hv
  · intro hall
    have hnone : pass_results P group = [] := by
      unfold pass_results
      rw [List.filterMap_eq_nil_iff]
      intro g hg
      apply group_handle_eq_none
      obtain ⟨devices, hids⟩ := g
      cases devices with
      | nil => rfl
      | cons a t =>
        obtain ⟨hpid, hhid⟩ := hall _ hg a rfl
        simp only at hhid
        subst hhid
        simp [validated, requires_hid, hpid]
    rw [hnone]
    simp [trim_device_list]

/-- C2 on `sample_inventory`: unit X2 has the product id of `RS430_MM_PID` and no
auxiliary descriptor; no handle of the pass carries its descriptor. -/
theorem pick_drops_mm_group_without_hid_witness :
    ∃ results group2,
      ds5_info.pick_ds5_devices rs4xx sample_inventory = .ok (results, group2) ∧
      ∀ h ∈ results, ¬ (h._depth = [⟨"X2", 0x0ad5, 0⟩] ∧ h._hid = []) := by
  obtain ⟨results, group2, hpick, hgroup, _, _⟩ :=
    pick_drops_mm_group_without_hid rs4xx sample_inventory
  exact ⟨results, group2, hpick,
    hgroup ([⟨"X2", 0x0ad5, 0⟩], []) (by decide) ⟨"X2", 0x0ad5, 0⟩ rfl (by decide) rfl⟩

/-- C3 as stated fails: an inventory whose only video descriptor does not pass
the product filter makes the pass return an empty result and the unchanged
inventory; nothing is thrown. -/
theorem pick_without_filtered_video_returns :
    filter_by_product [⟨"X9", 0x1234, 0⟩] rs4xx.rs4xx_sku_pid = [] ∧
    ds5_info.pick_ds5_devices rs4xx ⟨[⟨"X9", 0x1234, 0⟩], [], []⟩
      = .ok ([], ⟨[⟨"X9", 0x1234, 0⟩], [], []⟩) := by
  decide

/-- C3, as the code has it: when no video descriptor passes the product filter
the pass returns the empty handle list and leaves the inventory as it was; the
"not found" error of the file is the one `create` throws on a handle without
depth descriptors. -/
theorem pick_without_filtered_video (P : ds) (group : backend_device_group)
    (h : filter_by_product group.uvc_devices P.rs4xx_sku_pid = []) :
    ds5_info.pick_ds5_devices P group = .ok ([], group) ∧
    (∀ hwm hid, ds5_info.create P ⟨[], hwm, hid⟩
      = .error (.runtime_error "Depth Camera not found!")) := by
  constructor
  · have hg : group_devices P group = [] := by
      have := group_devices_and_hids_map_fst group.hid_devices
        (group_devices_by_unique_id (filter_by_product group.uvc_devices P.rs4xx_sku_pid))
      rw [h] at this
      simp only [group_devices_by_unique_id, List.foldl_nil, List.map_eq_nil_iff] at this
      simp only [group_devices, h, group_devices_by_unique_id, List.foldl_nil]
      exact this
    rw [pick_ds5_devices_eq, pass_results, hg]
    simp [trim_device_list]
  · intro hwm hid
    rfl

theorem pick_without_filtered_video_witness :
    ds5_info.pick_ds5_devices rs4xx ⟨[⟨"X9", 0x1234, 0⟩, ⟨"X8", 0x0001, 0⟩], [], [⟨"X9", 0x1234⟩]⟩
      = .ok ([], ⟨[⟨"X9", 0x1234, 0⟩, ⟨"X8", 0x0001, 0⟩], [], [⟨"X9", 0x1234⟩]⟩) ∧
    (∀ hwm hid, ds5_info.create rs4xx ⟨[], hwm, hid⟩
      = .error (.runtime_error "Depth Camera not found!")) :=
  pick_without_filtered_video rs4xx
    ⟨[⟨"X9", 0x1234, 0⟩, ⟨"X8", 0x0001, 0⟩], [], [⟨"X9", 0x1234⟩]⟩ (by decide)

/-- The inventory after the pass: the descriptors that lie in no validated
group. -/
theorem mem_trimmed (P : ds) (group : backend_device_group) (d : uvc_device_info) :
    d ∈ trim_device_list group.uvc_devices
        ((pass_results P group).flatMap (fun h => h._depth)) ↔
      d ∈ group.uvc_devices ∧
        ∀ g ∈ group_devices P group, validated P g = true → d ∉ g.1 := by
  simp only [trim_device_list, List.mem_filter, decide_eq_true_eq, mem_chosen]
  constructor
  · rintro ⟨hd, hn⟩
    exact ⟨hd, fun g hg hv hm => hn ⟨g, hg, hv, hm⟩⟩
  · rintro ⟨hd, hn⟩
    exact ⟨hd, fun ⟨g, hg, hv, hm⟩ => hn g hg hv hm⟩

/-- C5: after the pass the inventory is the one before it without the descriptors
of the groups that yielded a handle (the validated groups): it is the old
inventory filtered, hence in the old relative order; no descriptor of a
validated group remains; every descriptor outside the validated groups remains,
among them the descriptors of rejected groups and those the product filter
left out; with no handle the inventory is unchanged. -/
theorem pick_trims_validated_groups (P : ds) (group : backend_device_group) :
    ∃ results group2, ds5_info.pick_ds5_devices P group = .ok (results, group2) ∧
      results.map (fun h => h._depth)
        = ((group_devices P group).filter (validated P)).map Prod.fst ∧
      group2.uvc_devices
        = group.uvc_devices.filter (fun d => decide (∀ h ∈ results, d ∉ h._depth)) ∧
      group2.uvc_devices.Sublist group.uvc_devices ∧
      (∀ g ∈ group_devices P group, validated P g = true →
        ∀ d ∈ g.1, d ∉ group2.uvc_devices) ∧
      (∀ d ∈ group.uvc_devices,
        (∀ g ∈ group_devices P group, validated P g = true → d ∉ g.1) →
        d ∈ group2.uvc_devices) ∧
      (∀ g ∈ group_devices P group, validated P g = false →
        ∀ d ∈ g.1, d ∈ group2.uvc_devices) ∧
      (∀ d ∈ group.uvc_devices, d.pid ∉ P.rs4xx_sku_pid → d ∈ group2.uvc_devices) ∧
      (results = [] → group2.uvc_devices = group.uvc_devices) := by
  refine ⟨_, _, pick_ds5_devices_eq P group, ?_, ?_, ?_, ?_, ?_, ?_, ?_, ?_⟩
  · have := congrArg (List.map Prod.fst)
      (filterMap_group_handle_pairs P group.usb_devices (group_devices P group))
    simpa [pass_results, Function.comp_def] using this
  · simp only [trim_device_list]
    apply List.filter_congr
    intro d _
    simp [List.mem_flatMap]
  · exact List.filter_sublist _
  · intro g hg hv d hd hmem
    exact ((mem_trimmed P group d).mp hmem).2 g hg hv hd
  · intro d hd hn
    exact (mem_trimmed P group d).mpr ⟨hd, hn⟩
  · intro g hg hv d hd
    refine (mem_trimmed P group d).mpr ⟨(group_devices_subset P group g hg d hd).1, ?_⟩
    intro g2 hg2 hv2 hd2
    have e := group_devices_disjoint P group g g2 hg hg2 d hd hd2
    subst e
    rw [hv] at hv2
    cases hv2
  · intro d hd hpid
    refine (mem_trimmed P group d).mpr ⟨hd, ?_⟩
    intro g hg _ hd2
    exact hpid (group_devices_subset P group g hg d hd2).2
  · intro hnil
    simp [hnil, trim_device_list]

/-- C5 on `sample_inventory`: unit X1 is validated and its descriptors leave the
inventory; unit X4 is rejected and its descriptors stay, as does the
descriptor the filter left out. -/
theorem pick_trims_validated_groups_witness :
    ∃ results group2,
      ds5_info.pick_ds5_devices rs4xx sample_inventory = .ok (results, group2) ∧
      (∀ d ∈ [(⟨"X1", 0x0ad4, 0⟩ : uvc_device_info), ⟨"X1", 0x0ad4, 3⟩],
        d ∉ group2.uvc_devices) ∧
      (∀ d ∈ [(⟨"X4", 0x0ad2, 1⟩ : uvc_device_info), ⟨"X4", 0x0ad2, 0⟩],
        d ∈ group2.uvc_devices) ∧
      (⟨"X9", 0x1234, 0⟩ : uvc_device_info) ∈ group2.uvc_devices ∧
      group2.uvc_devices.Sublist sample_inventory.uvc_devices := by
  obtain ⟨results, group2, hpick, _, _, hsub, hgone, _, hstay, hfilt, _⟩ :=
    pick_trims_validated_groups rs4xx sample_inventory
  exact ⟨results, group2, hpick,
    hgone ([⟨"X1", 0x0ad4, 0⟩, ⟨"X1", 0x0ad4, 3⟩], [⟨"X1", 0x0ad4⟩]) (by decide) (by decide),
    hstay ([⟨"X4", 0x0ad2, 1⟩, ⟨"X4", 0x0ad2, 0⟩], []) (by decide) (by decide),
    hfilt ⟨"X9", 0x1234, 0⟩ (by decide) (by decide), hsub⟩

/-- C6: the pass returns, and its handles are, in group order, one for each group
that passes the two validation checks, carrying the video and the auxiliary
descriptors of that group; the checks do not look at whether `create` knows the
product id, so a handle whose product id is none of the case labels is returned
all the same and fails with "Unsupported RS400 model!" when `create` is called
on it, which does happen. -/
theorem pick_one_handle_per_validated_group (P : ds) (group : backend_device_group) :
    (∃ results group2, ds5_info.pick_ds5_devices P group = .ok (results, group2) ∧
      results.map (fun h => (h._depth, h._hid))
        = (group_devices P group).filter (validated P) ∧
      (∀ h ∈ results, ∀ front, h._depth.head? = some front → front.pid ∉ P.switch_pids →
        h.create P = .error (.runtime_error "Unsupported RS400 model!"))) ∧
    (∃ h group2, (0x0ad6 : Nat) ∉ rs4xx.switch_pids ∧
      ds5_info.pick_ds5_devices rs4xx ⟨[⟨"X3", 0x0ad6, 0⟩, ⟨"X1", 0x0ad4, 0⟩], [], []⟩
        = .ok ([h, ⟨[⟨"X1", 0x0ad4, 0⟩], [], []⟩], group2) ∧
      h._depth = [⟨"X3", 0x0ad6, 0⟩] ∧
      h.create rs4xx = .error (.runtime_error "Unsupported RS400 model!")) := by
  constructor
  · refine ⟨_, _, pick_ds5_devices_eq P group, ?_, ?_⟩
    · exact filterMap_group_handle_pairs P group.usb_devices (group_devices P group)
    · intro h _ front hfront hpid
      obtain ⟨depth, hwm, hid⟩ := h
      cases depth with
      | nil => cases hfront
      | cons a t =>
        simp only [List.head?_cons, Option.some.injEq] at hfront
        subst hfront
        rcases create_cases P a t hwm hid with ⟨_, he⟩ | ⟨hm, _⟩
        · exact he
        · exact absurd hm hpid
  · exact ⟨⟨[⟨"X3", 0x0ad6, 0⟩], [], []⟩, ⟨[], [], []⟩, by decide, by decide, rfl, by decide⟩

/-- C6 on `sample_inventory`: of the three groups only unit X1 passes both checks,
and the one handle of the pass carries its two video descriptors and its
auxiliary descriptor. -/
theorem pick_one_handle_per_validated_group_witness :
    ∃ results group2,
      ds5_info.pick_ds5_devices rs4xx sample_inventory = .ok (results, group2) ∧
      results.map (fun h => (h._depth, h._hid))
        = [([⟨"X1", 0x0ad4, 0⟩, ⟨"X1", 0x0ad4, 3⟩], [⟨"X1", 0x0ad4⟩])] := by
  obtain ⟨⟨results, group2, hpick, hmap, _⟩, _⟩ :=
    pick_one_handle_per_validated_group rs4xx sample_inventory
  exact ⟨results, group2, hpick, by rw [hmap]; decide⟩

/-- C7: the control interface test looks at the first video descriptor of the
group: a group whose first descriptor has an interface index other than 0 fails
validation whatever the later descriptors are, no handle carries its
descriptors, and all of them stay in the inventory. -/
theorem pick_rejects_by_first_descriptor (P : ds) (group : backend_device_group) :
    ∃ results group2, ds5_info.pick_ds5_devices P group = .ok (results, group2) ∧
      ∀ g ∈ group_devices P group, ∀ front, g.1.head? = some front → front.mi ≠ 0 →
        validated P g = false ∧ (∀ h ∈ results, h._depth ≠ g.1) ∧
        (∀ d ∈ g.1, d ∈ group2.uvc_devices) := by
  refine ⟨_, _, pick_ds5_devices_eq P group, ?_⟩
  intro g hg front hfront hmi
  have hv : validated P g = false := by
    obtain ⟨devices, hids⟩ := g
    cases devices with
    | nil => rfl
    | cons a t =>
      simp only [List.head?_cons, Option.some.injEq] at hfront
      subst hfront
      simp [validated, mi_present, hmi]
  refine ⟨hv, ?_, ?_⟩
  · intro h hh hc
    obtain ⟨g2, _, hg2⟩ := (mem_pass_results P group h).mp hh
    obtain ⟨hv2, front2, rest2, hdev, rfl⟩ := group_handle_eq_some P group.usb_devices g2 h hg2
    simp only [make_info] at hc
    obtain ⟨devices2, hids2⟩ := g2
    simp only at hc hdev
    rw [hc] at hv2
    rw [hc] at hdev
    rw [hdev] at hfront
    simp only [List.head?_cons, Option.some.injEq] at hfront
    subst hfront
    simp [validated, hdev, mi_present, hmi] at hv2
  · intro d hd
    refine (mem_trimmed P group d).mpr ⟨(group_devices_subset P group g hg d hd).1, ?_⟩
    intro g2 hg2 hv2 hd2
    have e := group_devices_disjoint P group g g2 hg hg2 d hd hd2
    subst e
    rw [hv] at hv2
    cases hv2

/-- C7 on `sample_inventory`: the first descriptor of unit X4 has interface index
1 and its second has index 0; the group is rejected and keeps its
descriptors. -/
theorem pick_rejects_by_first_descriptor_witness :
    ∃ results group2,
      ds5_info.pick_ds5_devices rs4xx sample_inventory = .ok (results, group2) ∧
      validated rs4xx ([⟨"X4", 0x0ad2, 1⟩, ⟨"X4", 0x0ad2, 0⟩], []) = false ∧
      (∀ h ∈ results, h._depth ≠ [⟨"X4", 0x0ad2, 1⟩, ⟨"X4", 0x0ad2, 0⟩]) ∧
      (∀ d ∈ [(⟨"X4", 0x0ad2, 1⟩ : uvc_device_info), ⟨"X4", 0x0ad2, 0⟩],
        d ∈ group2.uvc_devices) := by
  obtain ⟨results, group2, hpick, hall⟩ :=
    pick_rejects_by_first_descriptor rs4xx sample_inventory
  exact ⟨results, group2, hpick,
    hall ([⟨"X4", 0x0ad2, 1⟩, ⟨"X4", 0x0ad2, 0⟩], []) (by decide) ⟨"X4", 0x0ad2, 1⟩ rfl
      (by decide)⟩

/-- C8, the code at the failing input: a single video descriptor with product id
`RS430_MM_RGB_PID` and interface index 0, no auxiliary descriptor at all. The pass
returns a handle for it and claims the descriptor, although the device `create`
builds from that handle is an `rs430_rgb_mm_device`, which has the `ds5_motion`
module like the two guarded variants. -/
theorem pick_accepts_mm_rgb_without_hid :
    ds5_info.pick_ds5_devices rs4xx ⟨[⟨"X2", rs4xx.RS430_MM_RGB_PID, 0⟩], [], []⟩
      = .ok ([⟨[⟨"X2", rs4xx.RS430_MM_RGB_PID, 0⟩], [], []⟩], ⟨[], [], []⟩) ∧
    (⟨[⟨"X2", rs4xx.RS430_MM_RGB_PID, 0⟩], [], []⟩ : ds5_info).create rs4xx
      = .ok ⟨.rs430_rgb_mm_device, ⟨[⟨"X2", rs4xx.RS430_MM_RGB_PID, 0⟩], [], []⟩⟩ ∧
    capability_module.ds5_motion ∈ device_class.rs430_rgb_mm_device.modules ∧
    capability_module.ds5_motion ∈ device_class.rs430_mm_device.modules ∧
    capability_module.ds5_motion ∈ device_class.rs420_mm_device.modules := by
  decide

/-- C9: every group that passes the two validation checks has a handle in the
result, with the descriptors of the group; its control list is the one
descriptor `try_fetch_usb_device` finds for the first video descriptor, and is
empty when it finds none; no handle has more than one control descriptor, and
the pass returns in either case. -/
theorem pick_keeps_group_without_hwm (P : ds) (group : backend_device_group) :
    ∃ results group2, ds5_info.pick_ds5_devices P group = .ok (results, group2) ∧
      (∀ g ∈ group_devices P group, validated P g = true →
        ∃ front, g.1.head? = some front ∧ ∃ h ∈ results, h._depth = g.1 ∧ h._hid = g.2 ∧
          (∀ hwm, try_fetch_usb_device group.usb_devices front = some hwm → h._hwm = [hwm]) ∧
          (try_fetch_usb_device group.usb_devices front = none → h._hwm = [])) ∧
      (∀ h ∈ results, h._hwm.length ≤ 1) := by
  refine ⟨_, _, pick_ds5_devices_eq P group, ?_, ?_⟩
  · intro g hg hv
    obtain ⟨front, rest, hdev, hh⟩ := group_handle_of_validated P group.usb_devices g hv
    refine ⟨front, by rw [hdev]; rfl, _, (mem_pass_results P group _).mpr ⟨g, hg, hh⟩,
      rfl, rfl, ?_, ?_⟩
    · intro hwm hf
      simp [make_info, hf]
    · intro hf
      simp [make_info, hf]
  · intro h hh
    obtain ⟨g, _, hg⟩ := (mem_pass_results P group h).mp hh
    obtain ⟨_, front, rest, _, rfl⟩ := group_handle_eq_some P group.usb_devices g h hg
    simp only [make_info]
    cases try_fetch_usb_device group.usb_devices front <;> simp

/-- C9 on an inventory without any hardware-monitor descriptor: unit X1 passes
both checks and its handle is returned with an empty control list. -/
theorem pick_keeps_group_without_hwm_witness :
    ∃ results group2,
      ds5_info.pick_ds5_devices rs4xx ⟨[⟨"X1", 0x0ad4, 0⟩], [], []⟩ = .ok (results, group2) ∧
      ∃ h ∈ results, h._depth = [⟨"X1", 0x0ad4, 0⟩] ∧ h._hid = [] ∧ h._hwm = [] := by
  obtain ⟨results, group2, hpick, hall, _⟩ :=
    pick_keeps_group_without_hwm rs4xx ⟨[⟨"X1", 0x0ad4, 0⟩], [], []⟩
  obtain ⟨front, hfront, h, hh, hd, hhid, _, hnone⟩ :=
    hall ([⟨"X1", 0x0ad4, 0⟩], []) (by decide) (by decide)
  simp only [List.head?_cons, Option.some.injEq] at hfront
  subst hfront
  exact ⟨results, group2, hpick, h, hh, hd, hhid, hnone (by decide)⟩

end librealsense
